import Mathlib

/-
Verification development for the multi-agent feasibility-analysis system
(agentic_system package).  The definitions below are a shallow embedding of
the orchestration core:

  * agentic_system/orchestrator.py   (OrchestratorAgent)
  * agentic_system/agents/research_agent.py   (ResearchAgent)
  * agentic_system/agents/technology_agent.py (TechnologyAnalysisAgent)
  * agentic_system/models/messages.py         (data model)
  * agentic_system/config.py                  (Config)

Numeric values that Python stores as floats are modelled by exact rationals;
every arithmetic expression is translated literally from the source, and the
claims settled here are robust to the float/rational gap (no claim hinges on
a float rounding boundary).  Free-form text produced by the external LLM and
web-search collaborators is modelled by oracle parameters: the control flow
and all arithmetic stay literal, while the collaborator text (and the values
the code extracts from it with regexes) enter as inputs.
-/

/-- Qualitative confidence buckets, from models/messages.py (ConfidenceLevel). -/
inductive ConfidenceLevel where
  | very_low
  | low
  | medium
  | high
  | very_high
deriving DecidableEq, Repr

/-- Phases of the analysis workflow, from models/messages.py (AnalysisPhase). -/
inductive AnalysisPhase where
  | planning
  | information_gathering
  | parallel_analysis
  | validation
  | refinement
  | synthesis
  | complete
deriving DecidableEq, Repr

/-- Result record of one dimension analysis (models/messages.py,
DimensionAnalysis).  Only the fields the orchestration core reads are kept:
dimension name, numeric score, confidence level and the reasoning text. -/
structure DimensionAnalysis where
  dimension : String
  score : ℚ
  confidence : ConfidenceLevel
  reasoning : String
deriving DecidableEq, Repr

/-- Numeric midpoint of each confidence level, from the confidences dict in
OrchestratorAgent._validate_analyses (orchestrator.py lines 275-281). -/
def confidences : ConfidenceLevel → ℚ
  | .very_high => 0.95
  | .high => 0.80
  | .medium => 0.60
  | .low => 0.40
  | .very_low => 0.20

/-- Configuration constants from config.py (Config). -/
def Config.CONFIDENCE_THRESHOLD : ℚ := 0.75

/-- Maximum refinement iterations, from config.py (Config.MAX_ITERATIONS). -/
def Config.MAX_ITERATIONS : ℕ := 3

/-- Python exceptions that the embedded fragments can raise.  The code of
_validate_analyses divides by len(analyses), which raises ZeroDivisionError
on an empty list; ConfigurationError is the exception class named by the
specification (it does not occur anywhere in the source package) and is
included so that statements about it can be expressed. -/
inductive PyExn where
  | zeroDivisionError
  | configurationError
deriving DecidableEq, Repr

/-- Validation record returned by OrchestratorAgent._validate_analyses
(orchestrator.py lines 304-309); the consistency_check raw text is carried
by the is_consistent flag it is reduced to. -/
structure ValidationDict where
  confidence : ℚ
  is_consistent : Bool
  needs_refinement : Bool
deriving DecidableEq, Repr

/-- Arithmetic core of _validate_analyses on a (nonempty) list: the average
of the confidence midpoints, the LLM-derived consistency flag, and the
needs_refinement comparison (orchestrator.py lines 283, 302, 304-309).
The flag is_consistent abbreviates the substring test on the LLM response
(line 302); it enters as an oracle Boolean. -/
def validate_analyses_total (threshold : ℚ) (analyses : List DimensionAnalysis)
    (is_consistent : Bool) : ValidationDict :=
  let avg := (analyses.map fun a => confidences a.confidence).sum / analyses.length
  { confidence := avg
    is_consistent := is_consistent
    needs_refinement := decide (avg < threshold) }

/-- OrchestratorAgent._validate_analyses (orchestrator.py lines 267-309).
On an empty list the expression sum(...) / len(analyses) at line 283 raises
ZeroDivisionError; otherwise the validation dict is returned. -/
def validate_analyses (threshold : ℚ) (analyses : List DimensionAnalysis)
    (is_consistent : Bool) : Except PyExn ValidationDict :=
  if analyses = [] then .error .zeroDivisionError
  else .ok (validate_analyses_total threshold analyses is_consistent)

/-- Weight table of OrchestratorAgent._synthesize_final_decision
(orchestrator.py line 338): weights.get(dimension, 0.25). -/
def weights (d : String) : ℚ :=
  if d = "technology" then 0.30
  else if d = "cost" then 0.20
  else if d = "ethical" then 0.20
  else if d = "market" then 0.30
  else 0.25

/-- Sum of the weight-table values, sum(weights.values()) at line 342. -/
def weights_sum : ℚ := 0.30 + 0.20 + 0.20 + 0.30

/-- Weighted overall score of _synthesize_final_decision
(orchestrator.py lines 339-342). -/
def overall_score (analyses : List DimensionAnalysis) : ℚ :=
  (analyses.map fun a => a.score * weights a.dimension).sum / weights_sum

/-- Feasibility banding of _synthesize_final_decision
(orchestrator.py lines 345-354). -/
def feasibility (s : ℚ) : String :=
  if s ≥ 80 then "HIGHLY_FEASIBLE"
  else if s ≥ 65 then "FEASIBLE"
  else if s ≥ 50 then "MODERATELY_FEASIBLE"
  else if s ≥ 35 then "CHALLENGING"
  else "NOT_FEASIBLE"

/-- Final decision record (models/messages.py FinalDecision); the fields the
claims are about. -/
structure FinalDecision where
  overall_feasibility : String
  overall_score : ℚ
  confidence : ConfidenceLevel
  analysis_quality : String
deriving DecidableEq, Repr

/-- OrchestratorAgent._synthesize_final_decision (orchestrator.py lines
324-401): weighted score, feasibility band, the binary HIGH/MEDIUM decision
confidence (line 391, literal threshold 0.75) and the quality label
(line 398). -/
def synthesize_final_decision (analyses : List DimensionAnalysis)
    (validation : ValidationDict) : FinalDecision :=
  let score := overall_score analyses
  { overall_feasibility := feasibility score
    overall_score := score
    confidence := if validation.confidence > 0.75 then .high else .medium
    analysis_quality := if validation.is_consistent then "high" else "moderate" }

/-- OrchestratorAgent._simulate_dimension_analysis (orchestrator.py lines
219-265): given the score the regex extracted from the LLM response
(line 244, default 65.0 on no match is subsumed by quantifying over the
score) the confidence is MEDIUM when score > 50, else LOW (line 255). -/
def simulate_dimension_analysis (dimension : String) (score : ℚ)
    (analysis_text : String) : DimensionAnalysis :=
  { dimension := dimension
    score := score
    confidence := if score > 50 then .medium else .low
    reasoning := analysis_text }

/-- TechnologyAnalysisAgent._calculate_confidence (technology_agent.py lines
310-335): base 0.7, minus 0.15 when the maturity text contains unclear or
uncertain, minus gaps_count * 0.05 when gaps_count > 3, clamped to
[0.2, 0.95], then bucketed.  The substring tests on the maturity text enter
as the Boolean maturity_unclear. -/
def calculate_confidence (maturity_unclear : Bool) (gaps_count : ℕ) :
    ConfidenceLevel :=
  let s0 : ℚ := 0.7
  let s1 := if maturity_unclear then s0 - 0.15 else s0
  let s2 := if gaps_count > 3 then s1 - (gaps_count : ℚ) * 0.05 else s1
  let s := max 0.2 (min 0.95 s2)
  if s > 0.9 then .very_high
  else if s > 0.7 then .high
  else if s > 0.5 then .medium
  else if s > 0.3 then .low
  else .very_low

/-- Immutable request record (models/messages.py ProjectAnalysisRequest).
The pydantic model declares project_description as a plain str with no
length or content validator. -/
structure ProjectAnalysisRequest where
  project_description : String
  project_name : String
deriving DecidableEq, Repr

/-- Orchestrator state read by analyze_project: the iteration counter and
the configured threshold and cap (orchestrator.py lines 44-46). -/
structure OrchestratorState where
  iteration : ℕ
  confidence_threshold : ℚ
  max_iterations : ℕ
deriving DecidableEq, Repr

/-- Outputs of the external collaborators during one run of analyze_project:
the research decision extracted from the planning LLM text (line 127), the
technology analysis returned by the technology agent, the scores the regex
extracts for the three simulated dimensions (line 244) with their raw
texts, and the consistency flag extracted from the validation LLM text
(line 302). -/
structure OrchestratorEnv where
  strategy_needs_research : Bool
  tech_analysis : DimensionAnalysis
  cost_score : ℚ
  cost_text : String
  ethical_score : ℚ
  ethical_text : String
  market_score : ℚ
  market_text : String
  consistency_flag : Bool
deriving DecidableEq, Repr

/-- Ghost trace of one analyze_project run: the phases entered in order and
how often each stage executed.  The single llm_tool.reason call of
_decide_strategy (line 124) is counted by planning_reason_calls. -/
structure RunTrace where
  phases : List AnalysisPhase
  planning_reason_calls : ℕ
  validation_passes : ℕ
  refinement_passes : ℕ
deriving DecidableEq, Repr

/-- Value of one analyze_project run together with its ghost trace. -/
structure RunResult where
  decision : FinalDecision
  final_iteration : ℕ
  validation : ValidationDict
  trace : RunTrace
deriving DecidableEq, Repr

/-- Body of OrchestratorAgent._refine_analyses less the counter increment
(orchestrator.py lines 318-322): the analyses are returned unchanged. -/
def refine_analyses (analyses : List DimensionAnalysis) :
    List DimensionAnalysis :=
  analyses

/-- Dimension-name constant for the simulated cost agent. -/
def dim_cost : String := "cost"

/-- Dimension-name constant for the simulated ethical agent. -/
def dim_ethical : String := "ethical"

/-- Dimension-name constant for the simulated market agent. -/
def dim_market : String := "market"

/-- List of the four dimension analyses produced in the PARALLEL_ANALYSIS
phase (orchestrator.py lines 189-214): the technology agent result followed
by the three simulated dimensions. -/
def run_analyses (env : OrchestratorEnv) : List DimensionAnalysis :=
  [env.tech_analysis,
    simulate_dimension_analysis dim_cost env.cost_score env.cost_text,
    simulate_dimension_analysis dim_ethical env.ethical_score env.ethical_text,
    simulate_dimension_analysis dim_market env.market_score env.market_text]

/-- Validation record of the phase-4 validation pass of analyze_project
(orchestrator.py line 77) on the four analyses of run_analyses. -/
def run_validation (st : OrchestratorState) (env : OrchestratorEnv) :
    ValidationDict :=
  validate_analyses_total st.confidence_threshold (run_analyses env)
    env.consistency_flag

/-- OrchestratorAgent.analyze_project (orchestrator.py lines 52-99) with the
collaborator outputs supplied by env.  Phase 1 decides the strategy with
one llm_tool.reason call and performs no validation of the request text
(lines 60-62, 101-160; the request fields reach only LLM prompt text, whose
responses env supplies, so the run result does not otherwise depend on the
request); phase 2 gathers research iff the strategy asks for it (lines
65-68); phase 3 produces the four analyses of run_analyses; phase 4
validates them once (line 77; the list has four entries, so the
ZeroDivisionError branch of validate_analyses is unreachable and
validate_analyses_total gives its value, run_validation); phase 5 is the
single conditional refinement of lines 81-83 with the counter increment of
line 316; phase 6 synthesizes the final decision from the (possibly
refined) analyses and the phase-4 validation record (lines 86-91). -/
def analyze_project (st : OrchestratorState) (env : OrchestratorEnv)
    (_request : ProjectAnalysisRequest) : RunResult :=
  let validation := run_validation st env
  let do_refine : Prop := validation.confidence < st.confidence_threshold ∧
    st.iteration < st.max_iterations
  let analyses2 := if do_refine then refine_analyses (run_analyses env)
    else run_analyses env
  let iter2 := if do_refine then st.iteration + 1 else st.iteration
  { decision := synthesize_final_decision analyses2 validation
    final_iteration := iter2
    validation := validation
    trace :=
      { phases := [AnalysisPhase.planning]
          ++ (if env.strategy_needs_research
              then [AnalysisPhase.information_gathering] else [])
          ++ [AnalysisPhase.parallel_analysis, AnalysisPhase.validation]
          ++ (if do_refine then [AnalysisPhase.refinement] else [])
          ++ [AnalysisPhase.synthesis]
        planning_reason_calls := 1
        validation_passes := 1
        refinement_passes := if do_refine then 1 else 0 } }

/-- Validation-refinement loop as the specification words it (§4.1):
VALIDATION→REFINEMENT only while needs_refinement and iteration below
max_iterations, REFINEMENT→VALIDATION unconditional.  Stated for a run
whose aggregate confidence is unchanged by refinement (the code refinement
returns the analyses unchanged).  Takes the remaining iteration budget as
fuel and returns the pair (validation passes, refinement passes).  This
definition follows the spec, not the source; it exists to be compared with
analyze_project. -/
def spec_validation_refinement_loop (threshold confidence : ℚ) :
    ℕ → ℕ × ℕ
  | 0 => (1, 0)
  | n + 1 =>
    if confidence < threshold then
      let p := spec_validation_refinement_loop threshold confidence n
      (p.1 + 1, p.2 + 1)
    else (1, 0)

/-- One web-search record (title, snippet, source), the shape produced by
tools/web_search_tool.py and consumed by the research agent. -/
structure SearchResult where
  title : String
  snippet : String
  source : String
deriving DecidableEq, Repr

/-- Research findings record (models/messages.py ResearchFindings). -/
structure ResearchFindings where
  query : String
  findings : List SearchResult
  sources : List String
  confidence : ℚ
  relevance_score : ℚ
  agent_reasoning : String
deriving DecidableEq, Repr

/-- Substring test modelling the Python expression pat in s.lower(); the
receiver is lowercased character-wise as str.lower does for ASCII text. -/
def str_contains_lower (s pat : String) : Bool :=
  decide (pat.data <:+: s.data.map Char.toLower)

/-- Keyword constant for the unclear test in _assess_research_confidence. -/
def kw_unclear : String := "unclear"

/-- Keyword constant for the missing test in _assess_research_confidence. -/
def kw_missing : String := "missing"

/-- Keyword constant for the consistent test. -/
def kw_consistent : String := "consistent"

/-- Keyword constant for the clear test. -/
def kw_clear : String := "clear"

/-- Qualitative component read from the synthesized analysis text
(research_agent.py lines 177-183): 0.4 when the text mentions unclear or
missing, 0.75 when it mentions consistent or clear, else 0.6. -/
def analysis_component (analysis : String) : ℚ :=
  if str_contains_lower analysis kw_unclear ||
     str_contains_lower analysis kw_missing then 0.4
  else if str_contains_lower analysis kw_consistent ||
          str_contains_lower analysis kw_clear then 0.75
  else 0.6

/-- Source-diversity component min(distinct sources * 0.15, 0.35)
(research_agent.py lines 173-175). -/
def source_component (results : List SearchResult) : ℚ :=
  min (((results.map fun r => r.source).dedup.length : ℚ) * 0.15) 0.35

/-- ResearchAgent._assess_research_confidence (research_agent.py lines
166-188): 0.1 on an empty result list; otherwise the source-diversity
component and the qualitative component are averaged, 0.2 is added, and
the ceiling min(., 0.95) is applied. -/
def assess_research_confidence (results : List SearchResult)
    (analysis : String) : ℚ :=
  if results = [] then 0.1
  else
    min ((source_component results + analysis_component analysis) / 2 + 0.2)
      0.95

/-- Confidence formula as the specification words it (§4.3 step 2): the
source-diversity component and the qualitative component are averaged and
the result is floored and ceilinged to [0.1, 0.95].  This definition
follows the spec, not the source; it exists to be compared with
assess_research_confidence. -/
def spec_assess_research_confidence (results : List SearchResult)
    (analysis : String) : ℚ :=
  if results = [] then 0.1
  else
    max 0.1
      (min ((source_component results + analysis_component analysis) / 2)
        0.95)

/-- ResearchAgent._assess_relevance (research_agent.py lines 135-164): 0.0
on an empty result list, otherwise the score extracted from the relevance
LLM response (supplied as an oracle value). -/
def assess_relevance (results : List SearchResult) (llm_score : ℚ) : ℚ :=
  if results = [] then 0 else llm_score

/-- External collaborators of the research agent: the retrieval results per
query (the search tool with num_results=5 applied), the analysis text the
LLM synthesizes per query, and the relevance score extracted from the
relevance LLM response per query. -/
structure ResearchEnv where
  search : String → List SearchResult
  analysis_of : String → String
  relevance_of : String → ℚ

/-- ResearchAgent._research_query (research_agent.py lines 56-80): one
InformationRetriever invocation plus scoring of its results. -/
def research_query (env : ResearchEnv) (query : String) : ResearchFindings :=
  let results := env.search query
  let analysis := env.analysis_of query
  { query := query
    findings := results
    sources := results.map fun r => r.source
    confidence := assess_research_confidence results analysis
    relevance_score := assess_relevance results (env.relevance_of query)
    agent_reasoning := analysis }

/-- Cache loop of ResearchAgent.analyze (research_agent.py lines 28-54):
the queries are processed in order against the findings_cache; a hit
short-circuits to the cached record, a miss runs _research_query once and
stores the result.  Returns the findings list, the final cache, and the
number of InformationRetriever invocations. -/
def research_analyze (env : ResearchEnv) :
    List (String × ResearchFindings) → List String →
    List ResearchFindings × List (String × ResearchFindings) × ℕ
  | cache, [] => ([], cache, 0)
  | cache, q :: qs =>
    match cache.lookup q with
    | some f =>
      let r := research_analyze env cache qs
      (f :: r.1, r.2.1, r.2.2)
    | none =>
      let f := research_query env q
      let r := research_analyze env ((q, f) :: cache) qs
      (f :: r.1, r.2.1, r.2.2 + 1)

/-- Fixture: a run in which every collaborator reports low confidence
(technology LOW, the three simulated scores 40, hence LOW). -/
def low_confidence_env : OrchestratorEnv :=
  { strategy_needs_research := true
    tech_analysis :=
      { dimension := "technology", score := 40,
        confidence := ConfidenceLevel.low, reasoning := "" }
    cost_score := 40, cost_text := ""
    ethical_score := 40, ethical_text := ""
    market_score := 40, market_text := ""
    consistency_flag := true }

/-- Fixture: the configured initial orchestrator state (iteration 0,
threshold 0.75, max_iterations 3, as in config.py). -/
def initial_state : OrchestratorState :=
  { iteration := 0
    confidence_threshold := Config.CONFIDENCE_THRESHOLD
    max_iterations := Config.MAX_ITERATIONS }

/-- Fixture: a request whose description is whitespace-only. -/
def whitespace_request : ProjectAnalysisRequest :=
  { project_description := "   ", project_name := "p" }

/-- Fixture: an orchestrator state whose iteration counter has already
reached the cap (iteration 3, max_iterations 3). -/
def capped_state : OrchestratorState :=
  { iteration := 3
    confidence_threshold := Config.CONFIDENCE_THRESHOLD
    max_iterations := Config.MAX_ITERATIONS }

/-- Fixture: two analyses whose confidence midpoints average to 0.7. -/
def two_analyses : List DimensionAnalysis :=
  [{ dimension := "technology", score := 70,
     confidence := ConfidenceLevel.medium, reasoning := "" },
   { dimension := "market", score := 80,
     confidence := ConfidenceLevel.high, reasoning := "" }]

/-- Fixture: a single search result from one source. -/
def one_source_results : List SearchResult :=
  [{ title := "t", snippet := "s", source := "src" }]

/-- Fixture: an analysis text that triggers none of the keyword branches,
so the qualitative component is the neutral 0.6. -/
def neutral_analysis : String := "results look solid"

/-- CLAIM C2.  For every four canonical dimension analyses the synthesized
overall score is the weighted sum technology 0.30, market 0.30, cost 0.20,
ethics 0.20 divided by the sum of the weights; the instance technology=80,
cost=60, ethics=70, market=90 yields overall score 77 and band FEASIBLE. -/
theorem overall_score_weighted_formula :
    (∀ (t c e m : ℚ) (ct cc ce cm : ConfidenceLevel) (rt rc re rm : String),
      overall_score
        [⟨"technology", t, ct, rt⟩, ⟨"cost", c, cc, rc⟩,
         ⟨"ethical", e, ce, re⟩, ⟨"market", m, cm, rm⟩]
        = (t * 0.30 + m * 0.30 + c * 0.20 + e * 0.20)
            / (0.30 + 0.30 + 0.20 + 0.20)) ∧
    (synthesize_final_decision
        [⟨"technology", 80, .medium, ""⟩, ⟨"cost", 60, .medium, ""⟩,
         ⟨"ethical", 70, .medium, ""⟩, ⟨"market", 90, .medium, ""⟩]
        ⟨0.6, true, true⟩).overall_score = 77 ∧
    (synthesize_final_decision
        [⟨"technology", 80, .medium, ""⟩, ⟨"cost", 60, .medium, ""⟩,
         ⟨"ethical", 70, .medium, ""⟩, ⟨"market", 90, .medium, ""⟩]
        ⟨0.6, true, true⟩).overall_feasibility = "FEASIBLE" := by
  refine ⟨fun t c e m ct cc ce cm rt rc re rm => ?_, ?_, ?_⟩
  · simp [overall_score, weights, weights_sum]
    ring
  · simp [synthesize_final_decision, overall_score, weights, weights_sum]
    norm_num
  · simp [synthesize_final_decision, overall_score, weights, weights_sum,
      feasibility]
    norm_num

/-- CLAIM C3.  The feasibility bands partition the score line with
boundary-inclusive lower bounds: HIGHLY_FEASIBLE iff s ≥ 80, FEASIBLE iff
65 ≤ s < 80, MODERATELY_FEASIBLE iff 50 ≤ s < 65, CHALLENGING iff
35 ≤ s < 50, NOT_FEASIBLE iff s < 35; each boundary score falls in the
upper band and 34.9 maps to NOT_FEASIBLE. -/
theorem feasibility_band_characterization :
    (∀ s : ℚ,
      (feasibility s = "HIGHLY_FEASIBLE" ↔ 80 ≤ s) ∧
      (feasibility s = "FEASIBLE" ↔ 65 ≤ s ∧ s < 80) ∧
      (feasibility s = "MODERATELY_FEASIBLE" ↔ 50 ≤ s ∧ s < 65) ∧
      (feasibility s = "CHALLENGING" ↔ 35 ≤ s ∧ s < 50) ∧
      (feasibility s = "NOT_FEASIBLE" ↔ s < 35)) ∧
    feasibility 80 = "HIGHLY_FEASIBLE" ∧
    feasibility 65 = "FEASIBLE" ∧
    feasibility 50 = "MODERATELY_FEASIBLE" ∧
    feasibility 35 = "CHALLENGING" ∧
    feasibility (34.9 : ℚ) = "NOT_FEASIBLE" := by
  refine ⟨fun s => ?_, by norm_num [feasibility], by norm_num [feasibility],
    by norm_num [feasibility], by norm_num [feasibility],
    by norm_num [feasibility]⟩
  unfold feasibility
  split_ifs with h1 h2 h3 h4 <;>
    refine ⟨?_, ?_, ?_, ?_, ?_⟩ <;>
    constructor <;>
    intro h <;>
    first
      | rfl
      | (exact absurd h (by decide))
      | (constructor <;> linarith)
      | linarith

/-- Helper: the analyze_project record when the refinement condition of
line 81 holds. -/
lemma analyze_project_pos (st : OrchestratorState) (env : OrchestratorEnv)
    (req : ProjectAnalysisRequest)
    (h : (run_validation st env).confidence < st.confidence_threshold)
    (h' : st.iteration < st.max_iterations) :
    analyze_project st env req =
      { decision := synthesize_final_decision (run_analyses env)
          (run_validation st env)
        final_iteration := st.iteration + 1
        validation := run_validation st env
        trace :=
          { phases := [AnalysisPhase.planning]
              ++ (if env.strategy_needs_research
                  then [AnalysisPhase.information_gathering] else [])
              ++ [AnalysisPhase.parallel_analysis, AnalysisPhase.validation]
              ++ [AnalysisPhase.refinement] ++ [AnalysisPhase.synthesis]
            planning_reason_calls := 1
            validation_passes := 1
            refinement_passes := 1 } } := by
  have hc : (run_validation st env).confidence < st.confidence_threshold ∧
      st.iteration < st.max_iterations := ⟨h, h'⟩
  simp only [analyze_project, refine_analyses]
  rw [if_pos hc, if_pos hc, if_pos hc, if_pos hc]

/-- Helper: the analyze_project record when the refinement condition of
line 81 fails. -/
lemma analyze_project_neg (st : OrchestratorState) (env : OrchestratorEnv)
    (req : ProjectAnalysisRequest)
    (h : ¬((run_validation st env).confidence < st.confidence_threshold ∧
        st.iteration < st.max_iterations)) :
    analyze_project st env req =
      { decision := synthesize_final_decision (run_analyses env)
          (run_validation st env)
        final_iteration := st.iteration
        validation := run_validation st env
        trace :=
          { phases := [AnalysisPhase.planning]
              ++ (if env.strategy_needs_research
                  then [AnalysisPhase.information_gathering] else [])
              ++ [AnalysisPhase.parallel_analysis, AnalysisPhase.validation]
              ++ [] ++ [AnalysisPhase.synthesis]
            planning_reason_calls := 1
            validation_passes := 1
            refinement_passes := 0 } } := by
  simp only [analyze_project, refine_analyses]
  rw [if_neg h, if_neg h, if_neg h, if_neg h]

/-- Helper: the aggregate confidence of the all-low fixture run is 0.4. -/
lemma low_run_confidence :
    (run_validation initial_state low_confidence_env).confidence = 0.4 := by
  norm_num [run_validation, validate_analyses_total, run_analyses,
    simulate_dimension_analysis, confidences, low_confidence_env,
    initial_state, dim_cost, dim_ethical, dim_market]

/-- CLAIM C1 counterexample.  In the run where every analysis reports LOW
confidence (aggregate 0.4, below the 0.75 threshold) and the iteration
counter starts at 0 with max_iterations 3, the code performs exactly one
validation pass and exactly one refinement pass and ends at iteration 1
with the confidence still below threshold, whereas the
repeat-refinement-then-revalidation loop the claim describes performs four
validation passes and three refinement passes before synthesis. -/
theorem refinement_loop_counterexample :
    (analyze_project initial_state low_confidence_env
        whitespace_request).trace.validation_passes = 1 ∧
    (analyze_project initial_state low_confidence_env
        whitespace_request).trace.refinement_passes = 1 ∧
    (analyze_project initial_state low_confidence_env
        whitespace_request).final_iteration = 1 ∧
    (run_validation initial_state low_confidence_env).confidence
      < Config.CONFIDENCE_THRESHOLD ∧
    spec_validation_refinement_loop Config.CONFIDENCE_THRESHOLD
      (run_validation initial_state low_confidence_env).confidence
      Config.MAX_ITERATIONS = (4, 3) ∧
    ((1, 1) : ℕ × ℕ) ≠ (4, 3) := by
  have hlt : (run_validation initial_state low_confidence_env).confidence
      < initial_state.confidence_threshold := by
    rw [low_run_confidence]
    norm_num [initial_state, Config.CONFIDENCE_THRESHOLD]
  have hit : initial_state.iteration < initial_state.max_iterations := by
    norm_num [initial_state, Config.MAX_ITERATIONS]
  have hpos := analyze_project_pos initial_state low_confidence_env
    whitespace_request hlt hit
  rw [hpos]
  refine ⟨rfl, rfl, rfl, ?_, ?_, by decide⟩
  · rw [low_run_confidence]
    norm_num [Config.CONFIDENCE_THRESHOLD]
  · rw [low_run_confidence]
    norm_num [Config.CONFIDENCE_THRESHOLD, Config.MAX_ITERATIONS,
      spec_validation_refinement_loop]

/-- CLAIM C1 (amended).  When the validation confidence is below the
threshold and the iteration counter is below max_iterations, the
orchestrator performs exactly one refinement pass, increments the counter
once, and proceeds directly to synthesis without re-validating: validation
runs exactly once per analyze_project call and the phase sequence after
validation is refinement followed immediately by synthesis. -/
theorem refinement_single_pass_no_revalidation
    (st : OrchestratorState) (env : OrchestratorEnv)
    (req : ProjectAnalysisRequest)
    (h : (run_validation st env).confidence < st.confidence_threshold)
    (h' : st.iteration < st.max_iterations) :
    (analyze_project st env req).trace.refinement_passes = 1 ∧
    (analyze_project st env req).trace.validation_passes = 1 ∧
    (analyze_project st env req).final_iteration = st.iteration + 1 ∧
    (analyze_project st env req).trace.phases =
      [AnalysisPhase.planning]
        ++ (if env.strategy_needs_research
            then [AnalysisPhase.information_gathering] else [])
        ++ [AnalysisPhase.parallel_analysis, AnalysisPhase.validation,
            AnalysisPhase.refinement, AnalysisPhase.synthesis] := by
  rw [analyze_project_pos st env req h h']
  refine ⟨rfl, rfl, rfl, ?_⟩
  simp

/-- CLAIM C1 witness: the amended statement instantiated on the all-low
fixture run. -/
theorem refinement_single_pass_no_revalidation_witness :
    (analyze_project initial_state low_confidence_env
        whitespace_request).trace.refinement_passes = 1 ∧
    (analyze_project initial_state low_confidence_env
        whitespace_request).trace.validation_passes = 1 ∧
    (analyze_project initial_state low_confidence_env
        whitespace_request).final_iteration = 1 := by
  have h := refinement_single_pass_no_revalidation initial_state
    low_confidence_env whitespace_request
    (by rw [low_run_confidence]
        norm_num [initial_state, Config.CONFIDENCE_THRESHOLD])
    (by norm_num [initial_state, Config.MAX_ITERATIONS])
  exact ⟨h.1, h.2.1, h.2.2.1⟩

/-- CLAIM C4.  The iteration counter increments exactly once per refinement
pass, refinement never executes once the counter has reached
max_iterations, at most max_iterations refinement passes occur in a run
(at most 3 when max_iterations is 3), and every run ends at the synthesis
phase regardless of the confidence values. -/
theorem iteration_cap_and_synthesis_reached
    (st : OrchestratorState) (env : OrchestratorEnv)
    (req : ProjectAnalysisRequest) :
    (analyze_project st env req).final_iteration
        = st.iteration + (analyze_project st env req).trace.refinement_passes ∧
    (st.max_iterations ≤ st.iteration →
      (analyze_project st env req).trace.refinement_passes = 0) ∧
    (analyze_project st env req).trace.refinement_passes
        ≤ st.max_iterations ∧
    (st.max_iterations = 3 →
      (analyze_project st env req).trace.refinement_passes ≤ 3) ∧
    ∃ pre, (analyze_project st env req).trace.phases
        = pre ++ [AnalysisPhase.synthesis] := by
  by_cases hd : (run_validation st env).confidence < st.confidence_threshold ∧
      st.iteration < st.max_iterations
  · rw [analyze_project_pos st env req hd.1 hd.2]
    dsimp only
    have hit := hd.2
    refine ⟨rfl, fun hcap => absurd hit (by omega), by omega,
      fun _ => by omega,
      ⟨[AnalysisPhase.planning]
        ++ (if env.strategy_needs_research
            then [AnalysisPhase.information_gathering] else [])
        ++ [AnalysisPhase.parallel_analysis, AnalysisPhase.validation]
        ++ [AnalysisPhase.refinement], rfl⟩⟩
  · rw [analyze_project_neg st env req hd]
    dsimp only
    refine ⟨by omega, fun _ => rfl, by omega, fun _ => by omega,
      ⟨[AnalysisPhase.planning]
        ++ (if env.strategy_needs_research
            then [AnalysisPhase.information_gathering] else [])
        ++ [AnalysisPhase.parallel_analysis, AnalysisPhase.validation]
        ++ [], rfl⟩⟩

/-- CLAIM C4 witness: at the capped fixture state (iteration 3 of 3) no
refinement pass runs and the counter stays at 3; the synthesis phase is
still reached. -/
theorem iteration_cap_and_synthesis_reached_witness :
    (analyze_project capped_state low_confidence_env
        whitespace_request).trace.refinement_passes = 0 ∧
    (analyze_project capped_state low_confidence_env
        whitespace_request).final_iteration = 3 ∧
    (analyze_project capped_state low_confidence_env
        whitespace_request).trace.refinement_passes ≤ 3 := by
  have h := iteration_cap_and_synthesis_reached capped_state
    low_confidence_env whitespace_request
  have hcap : capped_state.max_iterations ≤ capped_state.iteration := by
    norm_num [capped_state, Config.MAX_ITERATIONS]
  have h0 := h.2.1 hcap
  refine ⟨h0, ?_, h.2.2.2.1 (by norm_num [capped_state, Config.MAX_ITERATIONS])⟩
  rw [h.1, h0]
  norm_num [capped_state]

/-- CLAIM C7 counterexample.  On a whitespace-only project description the
orchestrator does not fail fast: the run enters the Planning phase first,
makes the one strategy reasoning-provider call there, and completes
normally with a synthesized decision (band CHALLENGING for the all-40
fixture scores). -/
theorem no_fail_fast_on_whitespace_counterexample :
    (analyze_project initial_state low_confidence_env
        whitespace_request).trace.planning_reason_calls = 1 ∧
    (analyze_project initial_state low_confidence_env
        whitespace_request).trace.phases.head? = some AnalysisPhase.planning ∧
    (analyze_project initial_state low_confidence_env
        whitespace_request).decision.overall_feasibility = "CHALLENGING" := by
  have hlt : (run_validation initial_state low_confidence_env).confidence
      < initial_state.confidence_threshold := by
    rw [low_run_confidence]
    norm_num [initial_state, Config.CONFIDENCE_THRESHOLD]
  have hit : initial_state.iteration < initial_state.max_iterations := by
    norm_num [initial_state, Config.MAX_ITERATIONS]
  rw [analyze_project_pos initial_state low_confidence_env
    whitespace_request hlt hit]
  refine ⟨rfl, by simp, ?_⟩
  simp [synthesize_final_decision, overall_score, run_analyses,
    simulate_dimension_analysis, low_confidence_env, weights, weights_sum,
    dim_cost, dim_ethical, dim_market, feasibility]
  norm_num

/-- CLAIM C7 (amended).  The orchestrator performs no validation of the
project description: for every request, including empty or whitespace-only
descriptions, the run begins with the Planning phase, where exactly one
strategy reasoning-provider call is made. -/
theorem planning_always_runs_first
    (st : OrchestratorState) (env : OrchestratorEnv)
    (req : ProjectAnalysisRequest) :
    (analyze_project st env req).trace.planning_reason_calls = 1 ∧
    (analyze_project st env req).trace.phases.head?
      = some AnalysisPhase.planning := by
  constructor <;> simp [analyze_project]

/-- CLAIM C5.  On every nonempty analyses list the validation stage returns
the record whose confidence is the arithmetic mean of the per-analysis
confidence-level midpoints (very_low 0.20, low 0.40, medium 0.60,
high 0.80, very_high 0.95) and whose needs_refinement flag holds exactly
when that mean is below the confidence threshold. -/
theorem validation_mean_and_needs_refinement
    (threshold : ℚ) (analyses : List DimensionAnalysis) (flag : Bool)
    (h : analyses ≠ []) :
    validate_analyses threshold analyses flag
        = Except.ok (validate_analyses_total threshold analyses flag) ∧
    (validate_analyses_total threshold analyses flag).confidence
        = (analyses.map fun a => confidences a.confidence).sum
            / analyses.length ∧
    ((validate_analyses_total threshold analyses flag).needs_refinement = true
        ↔ (analyses.map fun a => confidences a.confidence).sum
            / analyses.length < threshold) := by
  refine ⟨by simp [validate_analyses, h], rfl, ?_⟩
  simp [validate_analyses_total]

/-- CLAIM C5 witness: the validation formula instantiated on the
two-analysis fixture (midpoints 0.60 and 0.80, mean 0.70, threshold 0.75,
hence needs_refinement). -/
theorem validation_mean_and_needs_refinement_witness :
    validate_analyses 0.75 two_analyses true
        = Except.ok (validate_analyses_total 0.75 two_analyses true) ∧
    (validate_analyses_total 0.75 two_analyses true).needs_refinement
        = true := by
  have h := validation_mean_and_needs_refinement 0.75 two_analyses true
    (by simp [two_analyses])
  refine ⟨h.1, h.2.2.mpr ?_⟩
  norm_num [two_analyses, confidences]

/-- CLAIM C6 counterexample.  Validating an empty analyses list raises
ZeroDivisionError (the division by len(analyses) at orchestrator.py line
283), which is not the ConfigurationError the claim names; no
ConfigurationError class exists in the package. -/
theorem validate_empty_zero_division_counterexample :
    validate_analyses 0.75 [] true = Except.error PyExn.zeroDivisionError ∧
    (Except.error PyExn.zeroDivisionError : Except PyExn ValidationDict)
      ≠ Except.error PyExn.configurationError := by
  exact ⟨by simp [validate_analyses], by simp⟩

/-- CLAIM C6 (amended).  Invoking the validation stage on an empty list of
analyses fails by raising ZeroDivisionError (an unhandled division by
zero) — it never silently returns a default validation record — and
validation fails only in that empty-input case. -/
theorem validate_fails_only_on_empty
    (threshold : ℚ) (analyses : List DimensionAnalysis) (flag : Bool) :
    ((validate_analyses threshold analyses flag).isOk = false
        ↔ analyses = []) ∧
    (analyses = [] →
      validate_analyses threshold analyses flag
        = Except.error PyExn.zeroDivisionError) := by
  unfold validate_analyses
  by_cases h : analyses = [] <;> simp [h, Except.isOk, Except.toBool]

/-- CLAIM C6 witness: the amended statement instantiated on the empty
list. -/
theorem validate_fails_only_on_empty_witness :
    (validate_analyses 0.75 ([] : List DimensionAnalysis) true).isOk
        = false ∧
    validate_analyses 0.75 ([] : List DimensionAnalysis) true
        = Except.error PyExn.zeroDivisionError := by
  have h := validate_fails_only_on_empty 0.75 ([] : List DimensionAnalysis)
    true
  exact ⟨h.1.mpr rfl, h.2 rfl⟩

/-- CLAIM C8.  Gathering the same query twice in one run issues exactly one
InformationRetriever call: on the list [q, q] the second occurrence is a
cache hit and both returned findings are the identical record stored at the
miss; likewise a second gather of [q] against the cache left by the first
issues zero further retrieval calls and returns the cached record. -/
theorem research_cache_single_retrieval (env : ResearchEnv) (q : String) :
    research_analyze env [] [q, q]
        = ([research_query env q, research_query env q],
           [(q, research_query env q)], 1) ∧
    research_analyze env ((research_analyze env [] [q]).2.1) [q]
        = ([research_query env q], [(q, research_query env q)], 0) := by
  constructor <;> simp [research_analyze, List.lookup]

/-- Helper: on a nonempty result list the source-diversity component lies
in [0.15, 0.35]. -/
lemma source_component_bounds (results : List SearchResult)
    (h : results ≠ []) :
    0.15 ≤ source_component results ∧ source_component results ≤ 0.35 := by
  have hm : (results.map fun r => r.source) ≠ [] := by simpa using h
  have hd : (results.map fun r => r.source).dedup ≠ [] := by
    simpa [List.dedup_eq_nil] using hm
  have hl : 0 < (results.map fun r => r.source).dedup.length :=
    List.length_pos.mpr hd
  have hq : (1 : ℚ) ≤ ((results.map fun r => r.source).dedup.length : ℚ) := by
    exact_mod_cast hl
  refine ⟨le_min (by nlinarith) (by norm_num), min_le_right _ _⟩

/-- Helper: the qualitative component is one of 0.4, 0.75, 0.6. -/
lemma analysis_component_cases (analysis : String) :
    analysis_component analysis = 0.4 ∨ analysis_component analysis = 0.75 ∨
    analysis_component analysis = 0.6 := by
  unfold analysis_component
  split_ifs <;> simp

/-- CLAIM C9 counterexample.  For one retrieval result from a single source
and a neutral analysis text, the code yields confidence
(0.15 + 0.6) / 2 + 0.2 = 0.575, while the formula of the claim — the plain
average clamped to [0.1, 0.95] — yields 0.375: the claim omits the
additive 0.2 shift. -/
theorem research_confidence_formula_counterexample :
    assess_research_confidence one_source_results neutral_analysis
        = 0.575 ∧
    spec_assess_research_confidence one_source_results neutral_analysis
        = 0.375 ∧
    assess_research_confidence one_source_results neutral_analysis
        ≠ spec_assess_research_confidence one_source_results
            neutral_analysis := by
  have h1 : str_contains_lower neutral_analysis kw_unclear = false := by
    decide
  have h2 : str_contains_lower neutral_analysis kw_missing = false := by
    decide
  have h3 : str_contains_lower neutral_analysis kw_consistent = false := by
    decide
  have h4 : str_contains_lower neutral_analysis kw_clear = false := by
    decide
  have ha : analysis_component neutral_analysis = 0.6 := by
    simp [analysis_component, h1, h2, h3, h4]
  have hdd : ((["src"] : List String)).dedup = ["src"] := by
    rw [List.dedup_cons_of_not_mem (by simp), List.dedup_nil]
  have hs : source_component one_source_results = 0.15 := by
    simp [source_component, one_source_results, hdd]
    norm_num [min_def]
  have hnil : one_source_results ≠ [] := by simp [one_source_results]
  refine ⟨?_, ?_, ?_⟩ <;>
    simp [assess_research_confidence, spec_assess_research_confidence,
      hnil, ha, hs] <;>
    norm_num [min_def, max_def]

/-- CLAIM C9 (amended).  On a cache miss with a nonempty retrieval result
list the research confidence equals the average of the source-diversity
component and the qualitative component plus 0.2, ceilinged at 0.95 (no
floor is applied on this path, though the value always stays within
[0.1, 0.95]); an empty retrieval result set yields relevance 0 and
confidence 0.1. -/
theorem research_confidence_shifted_average
    (results : List SearchResult) (analysis : String) (llm_score : ℚ) :
    (results = [] →
      assess_research_confidence results analysis = 0.1 ∧
      assess_relevance results llm_score = 0) ∧
    (results ≠ [] →
      assess_research_confidence results analysis
        = min ((source_component results + analysis_component analysis) / 2
            + 0.2) 0.95) ∧
    0.1 ≤ assess_research_confidence results analysis ∧
    assess_research_confidence results analysis ≤ 0.95 := by
  by_cases h : results = []
  · refine ⟨fun _ => ⟨by simp [assess_research_confidence, h],
      by simp [assess_relevance, h]⟩, fun hc => absurd h hc, ?_, ?_⟩ <;>
      norm_num [assess_research_confidence, h]
  · have hsrc := source_component_bounds results h
    have hac : 0.4 ≤ analysis_component analysis ∧
        analysis_component analysis ≤ 0.75 := by
      rcases analysis_component_cases analysis with hx | hx | hx <;>
        rw [hx] <;> norm_num
    refine ⟨fun hc => absurd hc h, fun _ => by
      simp [assess_research_confidence, h], ?_, ?_⟩
    · have : assess_research_confidence results analysis
          = min ((source_component results + analysis_component analysis) / 2
              + 0.2) 0.95 := by
        simp [assess_research_confidence, h]
      rw [this]
      refine le_min (by nlinarith [hsrc.1, hac.1]) (by norm_num)
    · have : assess_research_confidence results analysis
          = min ((source_component results + analysis_component analysis) / 2
              + 0.2) 0.95 := by
        simp [assess_research_confidence, h]
      rw [this]
      exact min_le_right _ _

/-- CLAIM C9 witness: the amended statement instantiated on the
single-source fixture (nonempty path) and on the empty result list. -/
theorem research_confidence_shifted_average_witness :
    assess_research_confidence one_source_results neutral_analysis
        = min ((source_component one_source_results
            + analysis_component neutral_analysis) / 2 + 0.2) 0.95 ∧
    assess_research_confidence ([] : List SearchResult) neutral_analysis
        = 0.1 ∧
    assess_relevance ([] : List SearchResult) (55 : ℚ) = 0 ∧
    0.1 ≤ assess_research_confidence one_source_results neutral_analysis := by
  have hne := research_confidence_shifted_average one_source_results
    neutral_analysis 55
  have hem := research_confidence_shifted_average ([] : List SearchResult)
    neutral_analysis 55
  exact ⟨hne.2.1 (by simp [one_source_results]), (hem.1 rfl).1,
    (hem.1 rfl).2, hne.2.2.1⟩

/-- Helper: the bucket mapping of _calculate_confidence applied to any
clamped score at most 0.7 never yields HIGH or VERY_HIGH, so its midpoint
is at most 0.6. -/
lemma confidences_bucket_le {s : ℚ} (h : s ≤ 0.7) :
    confidences (if s > 0.9 then ConfidenceLevel.very_high
      else if s > 0.7 then ConfidenceLevel.high
      else if s > 0.5 then ConfidenceLevel.medium
      else if s > 0.3 then ConfidenceLevel.low
      else ConfidenceLevel.very_low) ≤ 0.6 := by
  split_ifs with h1 h2 h3 h4 <;> first
    | linarith
    | norm_num [confidences]

/-- Helper: the technology agent confidence starts at 0.7 and only ever
decreases before clamping, so the resulting level midpoint is at most
0.6. -/
lemma calculate_confidence_le_medium (u : Bool) (g : ℕ) :
    confidences (calculate_confidence u g) ≤ 0.6 := by
  simp only [calculate_confidence]
  apply confidences_bucket_le
  apply max_le (by norm_num)
  refine le_trans (min_le_right _ _) ?_
  have hg0 : (0 : ℚ) ≤ (g : ℚ) * 0.05 := by positivity
  split_ifs <;> linarith

/-- Helper: the simulated cost, ethical and market analyses carry only
MEDIUM or LOW confidence, midpoint at most 0.6. -/
lemma simulate_confidence_le_medium (d : String) (s : ℚ) (txt : String) :
    confidences (simulate_dimension_analysis d s txt).confidence ≤ 0.6 := by
  simp only [simulate_dimension_analysis]
  split_ifs <;> norm_num [confidences]

/-- Helper: when the technology analysis confidence midpoint is at most
0.6, the phase-4 aggregate confidence of the run is at most 0.6. -/
lemma run_validation_confidence_le (st : OrchestratorState)
    (env : OrchestratorEnv)
    (h : confidences env.tech_analysis.confidence ≤ 0.6) :
    (run_validation st env).confidence ≤ 0.6 := by
  have h2 := simulate_confidence_le_medium dim_cost env.cost_score
    env.cost_text
  have h3 := simulate_confidence_le_medium dim_ethical env.ethical_score
    env.ethical_text
  have h4 := simulate_confidence_le_medium dim_market env.market_score
    env.market_text
  simp only [run_validation, validate_analyses_total, run_analyses,
    List.map_cons, List.map_nil, List.sum_cons, List.sum_nil,
    List.length_cons, List.length_nil]
  push_cast
  linarith

/-- CLAIM C10.  The technology agent confidence level is always at most
MEDIUM (its internal score starts at 0.7 and is only decreased), the
simulated dimensions carry only MEDIUM or LOW, and consequently in every
run whose technology analysis respects that bound the aggregate validation
confidence is at most 0.60; against the 0.75 threshold needs_refinement is
therefore always true, and the final decision confidence is always
MEDIUM — the HIGH branch of the synthesis stage is unreachable. -/
theorem analysis_confidence_capped_at_medium :
    (∀ (u : Bool) (g : ℕ), confidences (calculate_confidence u g) ≤ 0.6) ∧
    (∀ (d : String) (s : ℚ) (txt : String),
      confidences (simulate_dimension_analysis d s txt).confidence ≤ 0.6) ∧
    (∀ (st : OrchestratorState) (env : OrchestratorEnv)
        (req : ProjectAnalysisRequest),
      confidences env.tech_analysis.confidence ≤ 0.6 →
        (analyze_project st env req).validation.confidence ≤ 0.6 ∧
        (st.confidence_threshold = 0.75 →
          (analyze_project st env req).validation.needs_refinement = true) ∧
        (analyze_project st env req).decision.confidence
          = ConfidenceLevel.medium) := by
  refine ⟨calculate_confidence_le_medium, simulate_confidence_le_medium,
    fun st env req htech => ?_⟩
  have hval : (analyze_project st env req).validation
      = run_validation st env := by
    by_cases hd : (run_validation st env).confidence
        < st.confidence_threshold ∧ st.iteration < st.max_iterations
    · rw [analyze_project_pos st env req hd.1 hd.2]
    · rw [analyze_project_neg st env req hd]
  have hdec : (analyze_project st env req).decision.confidence
      = if (run_validation st env).confidence > 0.75
        then ConfidenceLevel.high else ConfidenceLevel.medium := by
    by_cases hd : (run_validation st env).confidence
        < st.confidence_threshold ∧ st.iteration < st.max_iterations
    · rw [analyze_project_pos st env req hd.1 hd.2]
      simp [synthesize_final_decision]
    · rw [analyze_project_neg st env req hd]
      simp [synthesize_final_decision]
  have hconf := run_validation_confidence_le st env htech
  rw [hval, hdec]
  refine ⟨hconf, fun hthr => ?_, if_neg (by linarith)⟩
  have hnr : (run_validation st env).needs_refinement
      = decide ((run_validation st env).confidence < st.confidence_threshold)
      := by
    simp [run_validation, validate_analyses_total]
  rw [hnr, decide_eq_true_eq, hthr]
  linarith

/-- CLAIM C10 witness: the capped-confidence consequences instantiated on
the all-low fixture run and on concrete technology-agent inputs. -/
theorem analysis_confidence_capped_at_medium_witness :
    (analyze_project initial_state low_confidence_env
        whitespace_request).validation.confidence ≤ 0.6 ∧
    (analyze_project initial_state low_confidence_env
        whitespace_request).validation.needs_refinement = true ∧
    (analyze_project initial_state low_confidence_env
        whitespace_request).decision.confidence = ConfidenceLevel.medium ∧
    confidences (calculate_confidence true 5) ≤ 0.6 := by
  have h := analysis_confidence_capped_at_medium
  have h3 := h.2.2 initial_state low_confidence_env whitespace_request
    (by norm_num [low_confidence_env, confidences])
  exact ⟨h3.1, h3.2.1 (by norm_num [initial_state,
    Config.CONFIDENCE_THRESHOLD]), h3.2.2, h.1 true 5⟩
